import Mathlib

/-!
Verification of the Cloud Foundry v3 Terraform provider's deployment
orchestration core against its specification.

The repository contains two generations of the app resource: the current
`cloudfoundryv3/resource_cf_app.go` / `resource_cf_droplet.go` files and a
legacy variant (the unnamed source part holding `resourceAppUpdate` with the
rolling-deployment loop).  Definitions below are shallow embeddings of those
Go functions: the Cloud Foundry API client is abstracted as records of call
results, terraform diagnostics are lists of severity-tagged entries, and the
remote side effects relevant to frame claims are tracked as explicit traces.
-/

namespace CF

/-- Severity of a terraform diagnostic entry (diag.Error / diag.Warning). -/
inductive Severity
  | error
  | warning
deriving DecidableEq

/-- One terraform diagnostic (diag.Diagnostic: Severity, Summary, Detail). -/
structure Diagnostic where
  severity : Severity
  summary : String
  detail : String
deriving DecidableEq

/-- diag.Diagnostics.HasError: true when any entry has error severity. -/
def hasError (diags : List Diagnostic) : Bool :=
  diags.any (fun d => d.severity == Severity.error)

/-- The error component of a client result, as Go's `err` return value. -/
def errOpt {α : Type} : Except String α → Option String
  | Except.error e => some e
  | Except.ok _ => none

/-- Result of one Cloud Foundry client call: `(value, ccv3.Warnings, error)`. -/
structure ClientCall (α : Type) where
  warnings : List String
  result : Except String α

/-- Embeds `diagFromClient`: each warning becomes a Warning diagnostic, a
non-nil error is appended as an Error diagnostic, all sharing the detail. -/
def diagFromClient (detail : String) (warns : List String) (err : Option String) :
    List Diagnostic :=
  (warns.map fun w => { severity := Severity.warning, summary := w, detail := detail }) ++
    (match err with
     | some e => [{ severity := Severity.error, summary := e, detail := detail }]
     | none => [])

/-- State of one process instance as observed by `GetProcessInstances`; the Go
switch only distinguishes RUNNING and CRASHED, all other states fall through. -/
inductive ProcessInstanceState
  | running
  | crashed
  | other
deriving DecidableEq

/-- The fields of `resources.Process` read by the embedded functions
(`Instances.Value` is the desired instance count as a Go int). -/
structure Process where
  guid : String
  type : String
  command : String
  healthCheckType : String
  healthCheckEndpoint : String
  memoryInMB : Int
  diskInMB : Int
  instancesValue : Int
deriving DecidableEq

def ProcessInstancesPending : String := "PENDING"

def ProcessInstancesStable : String := "STABLE"

def ProcessInstancesCrashed : String := "CRASHED"

/-- The message built by `fmt.Errorf("all %d process instances are in a crashed
state", len(instances))`. -/
def crashedInstancesMessage (n : Nat) : String :=
  "all " ++ toString n ++ " process instances are in a crashed state"

/-- Embeds the body of `processInstanceStateFunc` applied to a fetched
instance list: partition into running/crashed, then classify. Returns the Go
closure's `(state label, error)` pair (the payload is the instance list
itself and is omitted). -/
def processInstanceStateFunc (process : Process) (instances : List ProcessInstanceState) :
    String × Option String :=
  let runningInstances := instances.filter (fun i => i == ProcessInstanceState.running)
  let crashedInstances := instances.filter (fun i => i == ProcessInstanceState.crashed)
  if instances.length = 0 ∨ (runningInstances.length : Int) = process.instancesValue then
    (ProcessInstancesStable, none)
  else if crashedInstances.length = instances.length then
    (ProcessInstancesCrashed, some (crashedInstancesMessage instances.length))
  else
    (ProcessInstancesPending, none)

/-- Deployment status constants from the ccv3 client library. -/
def DeploymentStatusValueFinalized : String := "FINALIZED"

def DeploymentStatusReasonDeployed : String := "DEPLOYED"

def DeploymentDeploying : String := "DEPLOYING"

def DeploymentDeployed : String := "DEPLOYED"

def DeploymentFailed : String := "FAILED"

/-- The fields of `resources.Deployment` read by the embedded functions. -/
structure Deployment where
  guid : String
  statusValue : String
  statusReason : String
deriving DecidableEq

/-- Embeds the body of `deploymentStateFunc` applied to the result of
`GetDeployment`: fetch errors propagate; FINALIZED + DEPLOYED is success;
FINALIZED with any other reason is a failure carrying the reason; any other
status value is still deploying. -/
def deploymentStateFunc (fetchResult : Except String Deployment) :
    Option Deployment × String × Option String :=
  match fetchResult with
  | Except.error e => (none, "", some e)
  | Except.ok deployment =>
    if deployment.statusValue = DeploymentStatusValueFinalized then
      if deployment.statusReason = DeploymentStatusReasonDeployed then
        (some deployment, DeploymentDeployed, none)
      else
        (none, DeploymentFailed, some ("deployment failed: " ++ deployment.statusReason))
    else
      (some deployment, DeploymentDeploying, none)

/-- Claim C1: for every fetched instance list with total count N, running
count R, crashed count C and desired count D, the classifier yields exactly
one of stable/crashed/pending: stable iff N = 0 or R = D; otherwise crashed
(with an error naming the instance count) iff C = N; otherwise pending. -/
theorem processInstanceStateFunc_classification
    (p : Process) (instances : List ProcessInstanceState) :
    (processInstanceStateFunc p instances = (ProcessInstancesStable, none) ∨
      processInstanceStateFunc p instances =
        (ProcessInstancesCrashed, some (crashedInstancesMessage instances.length)) ∨
      processInstanceStateFunc p instances = (ProcessInstancesPending, none)) ∧
    ((processInstanceStateFunc p instances).1 = ProcessInstancesStable ↔
      (instances.length = 0 ∨
        (((instances.filter (fun i => i == ProcessInstanceState.running)).length : Int) =
          p.instancesValue))) ∧
    ((processInstanceStateFunc p instances).1 = ProcessInstancesCrashed ↔
      (¬ (instances.length = 0 ∨
          (((instances.filter (fun i => i == ProcessInstanceState.running)).length : Int) =
            p.instancesValue)) ∧
        (instances.filter (fun i => i == ProcessInstanceState.crashed)).length =
          instances.length)) ∧
    ((processInstanceStateFunc p instances).1 = ProcessInstancesPending ↔
      (¬ (instances.length = 0 ∨
          (((instances.filter (fun i => i == ProcessInstanceState.running)).length : Int) =
            p.instancesValue)) ∧
        ¬ (instances.filter (fun i => i == ProcessInstanceState.crashed)).length =
          instances.length)) ∧
    ((processInstanceStateFunc p instances).1 = ProcessInstancesCrashed →
      (processInstanceStateFunc p instances).2 =
        some (crashedInstancesMessage instances.length)) := by
  have hsc : ProcessInstancesStable ≠ ProcessInstancesCrashed := by decide
  have hsp : ProcessInstancesStable ≠ ProcessInstancesPending := by decide
  have hcp : ProcessInstancesCrashed ≠ ProcessInstancesPending := by decide
  unfold processInstanceStateFunc
  dsimp only
  split_ifs with h1 h2 <;>
    simp_all [hsc.symm, hsp.symm, hcp.symm, hsc, hsp, hcp] <;>
    assumption

/-- Claim C4: a deployment poll classifies a fetched deployment as success
(payload, DEPLOYED label, no error) exactly when finalized with reason
deployed; as failure (FAILED label with an error naming the reason) exactly
when finalized with any other reason; and as pending (payload, DEPLOYING
label, no error) exactly when the status value is anything else. -/
theorem deploymentStateFunc_poll_classification (d : Deployment) :
    (deploymentStateFunc (Except.ok d) = (some d, DeploymentDeployed, none) ↔
      (d.statusValue = DeploymentStatusValueFinalized ∧
        d.statusReason = DeploymentStatusReasonDeployed)) ∧
    (deploymentStateFunc (Except.ok d) =
        (none, DeploymentFailed, some ("deployment failed: " ++ d.statusReason)) ↔
      (d.statusValue = DeploymentStatusValueFinalized ∧
        ¬ d.statusReason = DeploymentStatusReasonDeployed)) ∧
    (deploymentStateFunc (Except.ok d) = (some d, DeploymentDeploying, none) ↔
      ¬ d.statusValue = DeploymentStatusValueFinalized) := by
  have hdx : DeploymentDeployed ≠ DeploymentFailed := by decide
  have hdy : DeploymentDeployed ≠ DeploymentDeploying := by decide
  have hfy : DeploymentFailed ≠ DeploymentDeploying := by decide
  unfold deploymentStateFunc
  dsimp only
  split_ifs with h1 h2 <;>
    simp_all [hdx, hdy, hfy, hdx.symm, hdy.symm, hfy.symm]

/-- Retry ceiling hardcoded in the legacy `resourceAppUpdate` rolling
deployment loop (`maxDeployAttempts := 5`). -/
def maxDeployAttempts : Nat := 5

/-- Retry ceiling of the standalone deployment resource
(`MaxDeploymentAttempts = 3`). -/
def MaxDeploymentAttempts : Nat := 3

/-- Embeds `createDeploymentFromDropletWithRetry`'s loop shape: a counter
starts at `currentDeployAttempt`, each iteration increments it and runs one
`createDeploymentFromDroplet` attempt (whose first action is the
create-deployment call, so one attempt equals one create call); on failure the
loop continues while the counter is below the ceiling and otherwise returns
the last error.  The attempt unit is abstracted as a function from the attempt
number to that attempt's outcome; the returned list records the attempt
numbers executed, in order. -/
def deployRetryLoop (attemptUnit : Nat → Except String Deployment) (maxAttempts : Nat)
    (currentDeployAttempt : Nat) : List Nat × Except String Deployment :=
  match attemptUnit (currentDeployAttempt + 1) with
  | Except.ok dep => ([currentDeployAttempt + 1], Except.ok dep)
  | Except.error e =>
    if h : currentDeployAttempt + 1 < maxAttempts then
      let rest := deployRetryLoop attemptUnit maxAttempts (currentDeployAttempt + 1)
      ((currentDeployAttempt + 1) :: rest.1, rest.2)
    else
      ([currentDeployAttempt + 1], Except.error e)
termination_by maxAttempts - currentDeployAttempt
decreasing_by omega

/-- Embeds `createDeploymentFromDropletWithRetry`: the standalone deployment
resource's retry wrapper with ceiling `MaxDeploymentAttempts`. -/
def createDeploymentFromDropletWithRetry
    (attemptUnit : Nat → Except String Deployment) : List Nat × Except String Deployment :=
  deployRetryLoop attemptUnit MaxDeploymentAttempts 0

/-- Witness for C1: two running instances of a process desiring two
instances classify as stable. -/
theorem processInstanceStateFunc_classification_witness :
    (processInstanceStateFunc
        { guid := "proc", type := "web", command := "", healthCheckType := "port",
          healthCheckEndpoint := "", memoryInMB := 1024, diskInMB := 1024,
          instancesValue := 2 }
        [ProcessInstanceState.running, ProcessInstanceState.running]).1 =
      ProcessInstancesStable :=
  (processInstanceStateFunc_classification
      { guid := "proc", type := "web", command := "", healthCheckType := "port",
        healthCheckEndpoint := "", memoryInMB := 1024, diskInMB := 1024,
        instancesValue := 2 }
      [ProcessInstanceState.running, ProcessInstanceState.running]).2.1.mpr
    (Or.inr (by decide))

/-- Witness for C4: a deployment finalized with reason deployed polls as the
success state with its payload and no error. -/
theorem deploymentStateFunc_poll_classification_witness :
    deploymentStateFunc
        (Except.ok { guid := "dep", statusValue := "FINALIZED", statusReason := "DEPLOYED" }) =
      (some { guid := "dep", statusValue := "FINALIZED", statusReason := "DEPLOYED" },
        DeploymentDeployed, none) :=
  (deploymentStateFunc_poll_classification
      { guid := "dep", statusValue := "FINALIZED", statusReason := "DEPLOYED" }).1.mpr
    (by decide)

/-- The outcomes the platform hands to attempt number n of the legacy
`resourceAppUpdate` rolling-deployment loop: the `CreateApplicationDeployment`
call, the deployment `StateChangeConf` wait, the `GetNewApplicationProcesses`
call, and, per discovered process, the outcome of its stabilization wait. -/
structure AttemptOutcomes where
  createResult : Except String String
  waitResult : Except String Unit
  getProcessesResult : Except String (List (Except String Unit))

/-- Embeds the inner `for _, process := range processes` loop of the legacy
`resourceAppUpdate`: on a failed stabilization wait, the `continue` statement
targets this inner loop (Go's `continue` binds to the innermost loop), so
while the attempt counter is below the ceiling a failure merely skips to the
next process; only at the final attempt is the error returned.  Yields `some
error` when the Go code returns with that error, `none` when the inner loop
runs to completion. -/
def stabilizeProcesses (currentDeployAttempt maxAttempts : Nat)
    (processResults : List (Except String Unit)) : Option String :=
  match processResults with
  | [] => none
  | Except.ok () :: rest => stabilizeProcesses currentDeployAttempt maxAttempts rest
  | Except.error e :: rest =>
    if currentDeployAttempt < maxAttempts then
      stabilizeProcesses currentDeployAttempt maxAttempts rest
    else some e

/-- Embeds the outer rolling-deployment loop of the legacy
`resourceAppUpdate`: each iteration increments the attempt counter, issues one
create-deployment call, then waits for the deployment, discovers the new
processes and runs the inner stabilization loop; failures of the first three
steps `continue` this outer loop while the counter is below the ceiling and
otherwise return the error; after the inner loop the outer loop `break`s.
Returns the number of create-deployment calls issued and the loop's result. -/
def appUpdateDeployLoopGo (outcomes : Nat → AttemptOutcomes) (maxAttempts : Nat)
    (currentDeployAttempt : Nat) : Nat × Except String Unit :=
  let o := outcomes (currentDeployAttempt + 1)
  match o.createResult with
  | Except.error e =>
    if h : currentDeployAttempt + 1 < maxAttempts then
      let rest := appUpdateDeployLoopGo outcomes maxAttempts (currentDeployAttempt + 1)
      (rest.1 + 1, rest.2)
    else (1, Except.error e)
  | Except.ok _deploymentGUID =>
    match o.waitResult with
    | Except.error e =>
      if h : currentDeployAttempt + 1 < maxAttempts then
        let rest := appUpdateDeployLoopGo outcomes maxAttempts (currentDeployAttempt + 1)
        (rest.1 + 1, rest.2)
      else (1, Except.error e)
    | Except.ok _ =>
      match o.getProcessesResult with
      | Except.error e =>
        if h : currentDeployAttempt + 1 < maxAttempts then
          let rest := appUpdateDeployLoopGo outcomes maxAttempts (currentDeployAttempt + 1)
          (rest.1 + 1, rest.2)
        else (1, Except.error e)
      | Except.ok processResults =>
        match stabilizeProcesses (currentDeployAttempt + 1) maxAttempts processResults with
        | some e => (1, Except.error e)
        | none => (1, Except.ok ())
termination_by maxAttempts - currentDeployAttempt
decreasing_by all_goals omega

/-- An execution in which every attempt's create, wait and process-discovery
steps succeed but the single new process never stabilizes. -/
def failingStabilizeOutcomes : Nat → AttemptOutcomes := fun _ =>
  { createResult := Except.ok "deployment-1",
    waitResult := Except.ok (),
    getProcessesResult :=
      Except.ok [Except.error "all 2 process instances are in a crashed state"] }

/-- An execution in which every attempt's create-deployment call fails. -/
def createFailOutcomes : Nat → AttemptOutcomes := fun _ =>
  { createResult := Except.error "create failed",
    waitResult := Except.ok (),
    getProcessesResult := Except.ok [] }

/-- Claim C2, evaluated on the code: (a) in the interactive app-update path an
execution whose create-deployment-and-stabilize unit fails at the
stabilization step on its (first and only) attempt makes exactly one
create-deployment call and returns success — the stabilization retry targets
the inner per-process loop, so the failure is skipped rather than retried,
contradicting the claimed 5 attempts and surfaced error; (b) when instead the
create step itself always fails, that path does make exactly 5
create-deployment calls and returns the last error; (c) the standalone
deployment path runs attempts 1,2,3 — exactly 3 create-deployment calls, each
a brand-new attempt — and returns the last error when its unit always
fails. -/
theorem appUpdate_stabilize_retry_code_bug :
    appUpdateDeployLoopGo failingStabilizeOutcomes maxDeployAttempts 0 =
      (1, Except.ok ()) ∧
    appUpdateDeployLoopGo createFailOutcomes maxDeployAttempts 0 =
      (5, Except.error "create failed") ∧
    (∀ (u : Nat → Except String Deployment) (e : Nat → String),
      (∀ n, u n = Except.error (e n)) →
      createDeploymentFromDropletWithRetry u = ([1, 2, 3], Except.error (e 3))) := by
  refine ⟨?_, ?_, ?_⟩
  · rw [appUpdateDeployLoopGo]
    norm_num [failingStabilizeOutcomes, stabilizeProcesses, maxDeployAttempts]
  · rw [appUpdateDeployLoopGo]
    norm_num [createFailOutcomes, maxDeployAttempts]
    rw [appUpdateDeployLoopGo]
    norm_num [createFailOutcomes, maxDeployAttempts]
    rw [appUpdateDeployLoopGo]
    norm_num [createFailOutcomes, maxDeployAttempts]
    rw [appUpdateDeployLoopGo]
    norm_num [createFailOutcomes, maxDeployAttempts]
    rw [appUpdateDeployLoopGo]
    norm_num [createFailOutcomes, maxDeployAttempts]
  · intro u e h
    show deployRetryLoop u MaxDeploymentAttempts 0 = _
    rw [deployRetryLoop, h 1]
    norm_num [MaxDeploymentAttempts]
    rw [deployRetryLoop, h 2]
    norm_num
    rw [deployRetryLoop, h 3]
    norm_num

/-- Witness for C2's universally quantified part: a standalone-path unit that
always fails exhausts exactly the 3 configured attempts. -/
theorem appUpdate_stabilize_retry_code_bug_witness :
    createDeploymentFromDropletWithRetry (fun _ => Except.error "boom") =
      ([1, 2, 3], Except.error "boom") :=
  appUpdate_stabilize_retry_code_bug.2.2 (fun _ => Except.error "boom")
    (fun _ => "boom") (fun _ => rfl)

/-- The droplet fields read by the embedded functions (`resources.Droplet`):
identifier, buildpack names, stack, docker image. -/
structure Droplet where
  guid : String
  buildpacks : List String
  stack : String
  image : String
deriving DecidableEq

/-- The configuration diff facts consulted by the buildpack branch of the
legacy `resourceAppUpdate`: whether `GetOk("source_code_path")` reports a
configured (set, non-empty) source path, and which of the five watched
attributes `HasChanges` reports as changed. -/
structure AppUpdateDiff where
  sourceCodePathSet : Bool
  changedBuildpacks : Bool
  changedSourceCodePath : Bool
  changedSourceCodeHash : Bool
  changedStack : Bool
  changedEnvironment : Bool
deriving DecidableEq

/-- The disjunction tested by
`d.HasChanges("buildpacks", "source_code_path", "source_code_hash", "stack", "environment")`. -/
def hasBuildpackTriggers (d : AppUpdateDiff) : Bool :=
  d.changedBuildpacks || d.changedSourceCodePath || d.changedSourceCodeHash ||
    d.changedStack || d.changedEnvironment

/-- Embeds the buildpack case of the legacy `resourceAppUpdate`: starting from
`desiredDroplet := currentDroplet`, stage a new droplet (outcome
`stageResult`) only when a source path is configured and one of the watched
attributes changed.  The boolean records whether `createBuildpackDroplet` was
invoked. -/
def buildpackDesiredDroplet (d : AppUpdateDiff) (currentDroplet : Droplet)
    (stageResult : Except String Droplet) : Bool × Except String Droplet :=
  if d.sourceCodePathSet then
    if hasBuildpackTriggers d then
      match stageResult with
      | Except.error e => (true, Except.error e)
      | Except.ok newBuildpackDroplet => (true, Except.ok newBuildpackDroplet)
    else (false, Except.ok currentDroplet)
  else (false, Except.ok currentDroplet)

/-- Claim C5: in the buildpack app-update path a new droplet is staged iff a
source path is configured and at least one of buildpacks, source_code_path,
source_code_hash, stack, environment changed; whenever staging is not
invoked the desired droplet equals the current droplet, and whenever it is
invoked the outcome is exactly the staging result. -/
theorem buildpackDesiredDroplet_stages_iff (d : AppUpdateDiff) (cur : Droplet)
    (stageResult : Except String Droplet) :
    ((buildpackDesiredDroplet d cur stageResult).1 = true ↔
      (d.sourceCodePathSet = true ∧ hasBuildpackTriggers d = true)) ∧
    ((buildpackDesiredDroplet d cur stageResult).1 = false →
      (buildpackDesiredDroplet d cur stageResult).2 = Except.ok cur) ∧
    ((buildpackDesiredDroplet d cur stageResult).1 = true →
      (buildpackDesiredDroplet d cur stageResult).2 = stageResult) := by
  unfold buildpackDesiredDroplet
  split_ifs with h1 h2
  · cases stageResult <;> simp_all
  · simp_all
  · simp_all

/-- Witness for C5: with a configured source path and a changed source hash,
staging is invoked and returns the staged droplet; with no change, the
current droplet is kept. -/
theorem buildpackDesiredDroplet_stages_iff_witness :
    (buildpackDesiredDroplet
        { sourceCodePathSet := true, changedBuildpacks := false,
          changedSourceCodePath := false, changedSourceCodeHash := true,
          changedStack := false, changedEnvironment := false }
        { guid := "cur", buildpacks := [], stack := "cflinuxfs3", image := "" }
        (Except.ok { guid := "new", buildpacks := [], stack := "cflinuxfs3", image := "" })).1
      = true :=
  (buildpackDesiredDroplet_stages_iff
      { sourceCodePathSet := true, changedBuildpacks := false,
        changedSourceCodePath := false, changedSourceCodeHash := true,
        changedStack := false, changedEnvironment := false }
      { guid := "cur", buildpacks := [], stack := "cflinuxfs3", image := "" }
      (Except.ok { guid := "new", buildpacks := [], stack := "cflinuxfs3", image := "" })).1.mpr
    (by decide)

/-- Application run-state constants (`constant.ApplicationStarted/Stopped`). -/
def ApplicationStarted : String := "STARTED"

def ApplicationStopped : String := "STOPPED"

/-- The action the legacy `resourceAppUpdate` takes after computing the
desired droplet. -/
inductive DropletSyncAction
  | rollingDeployment
  | setCurrentDroplet
  | noAction
deriving DecidableEq

/-- Embeds the droplet-synchronisation dispatch of the legacy
`resourceAppUpdate`: only when the desired droplet GUID is non-empty and
differs from the current droplet GUID does anything happen, and then a
rolling deployment is performed when the desired state is STARTED, else the
current droplet pointer is set directly. -/
def dropletSyncAction (desiredDropletGUID currentDropletGUID desiredApplicationState : String) :
    DropletSyncAction :=
  if desiredDropletGUID ≠ "" ∧ desiredDropletGUID ≠ currentDropletGUID then
    if desiredApplicationState = ApplicationStarted then DropletSyncAction.rollingDeployment
    else DropletSyncAction.setCurrentDroplet
  else DropletSyncAction.noAction

/-- Counterexample to C6 as stated: with desired droplet GUID "" and current
droplet GUID "droplet-1" the identifiers differ and the desired state is
STOPPED, yet the update path neither sets the current droplet pointer nor
deploys: the guard also requires the desired GUID to be non-empty. -/
theorem dropletSyncAction_empty_guid_counterexample :
    ("" : String) ≠ "droplet-1" ∧
    dropletSyncAction "" "droplet-1" ApplicationStopped ≠ DropletSyncAction.setCurrentDroplet ∧
    dropletSyncAction "" "droplet-1" ApplicationStopped = DropletSyncAction.noAction := by
  refine ⟨by decide, ?_, ?_⟩ <;> simp [dropletSyncAction, ApplicationStopped, ApplicationStarted]

/-- Claim C6 (amended): whenever the desired droplet identifier is non-empty
and differs from the current droplet identifier, the update path performs a
rolling deployment exactly when the desired run state is STARTED; when the
desired run state is STOPPED it sets the application's current droplet
pointer directly and creates no deployment. -/
theorem dropletSyncAction_dispatch (dG cG : String)
    (hne : dG ≠ "") (hdiff : dG ≠ cG) :
    dropletSyncAction dG cG ApplicationStarted = DropletSyncAction.rollingDeployment ∧
    dropletSyncAction dG cG ApplicationStopped = DropletSyncAction.setCurrentDroplet ∧
    (∀ st : String, dropletSyncAction dG cG st = DropletSyncAction.rollingDeployment →
      st = ApplicationStarted) := by
  refine ⟨?_, ?_, ?_⟩
  · simp [dropletSyncAction, hne, hdiff]
  · simp [dropletSyncAction, hne, hdiff, ApplicationStopped, ApplicationStarted]
  · intro st hst
    unfold dropletSyncAction at hst
    split_ifs at hst with hg hs
    all_goals first
      | exact hs
      | exact absurd hst (by simp)

/-- Witness for C6 (amended): for desired GUID "droplet-2" and current GUID
"droplet-1", STARTED triggers a rolling deployment and STOPPED sets the
current droplet pointer. -/
theorem dropletSyncAction_dispatch_witness :
    dropletSyncAction "droplet-2" "droplet-1" ApplicationStarted =
      DropletSyncAction.rollingDeployment ∧
    dropletSyncAction "droplet-2" "droplet-1" ApplicationStopped =
      DropletSyncAction.setCurrentDroplet :=
  let h := dropletSyncAction_dispatch "droplet-2" "droplet-1" (by decide) (by decide)
  ⟨h.1, h.2.1⟩

/-- The package fields read by the embedded functions. -/
structure Package where
  guid : String
deriving DecidableEq

/-- The build fields read by the embedded functions. -/
structure Build where
  guid : String
  dropletGUID : String
deriving DecidableEq

/-- One remote Cloud Foundry API request issued by the staging pipeline; the
polling waits are each summarised as a single poll entry. -/
inductive RemoteCall
  | createPackage
  | uploadBitsPackage
  | pollPackage
  | createBuild
  | pollBuild
  | getBuild
  | getDroplet
deriving DecidableEq

/-- The responses the abstracted client hands to one run of
`createBuildpackDroplet`.  `openArchive` and `statArchive` are the local
`os.Open` / `Stat` outcomes (not remote calls); the two poll fields are the
outcomes of the package and build `StateChangeConf` waits. -/
structure BuildpackStageClient where
  createPackageResult : ClientCall Package
  openArchive : Except String Unit
  statArchive : Except String Int
  uploadBitsResult : ClientCall Package
  packagePollResult : Except String Unit
  createBuildResult : ClientCall Build
  buildPollResult : Except String Unit
  getBuildResult : ClientCall Build
  getDropletResult : ClientCall Droplet

/-- The validation diagnostic produced when the source path is empty. -/
def sourcePathRequiredDiag : Diagnostic :=
  { severity := Severity.error,
    summary := "source_code_path required for lifecycle type buildpack",
    detail := "set the source_code_path to a path to a zipped up version of your application source code" }

/-- Embeds `createBuildpackDroplet` (droplet resource variant; the legacy app
variant has the identical step order): create a bits package, then validate
the source path and open/stat the archive, then upload the bits, poll the
package to ready, create a build, poll it to staged, re-fetch the build and
fetch its droplet.  Returns the ordered trace of remote calls issued, the
droplet (on success) and the accumulated diagnostics. -/
def createBuildpackDroplet (c : BuildpackStageClient) (sourceCodePath : String) :
    List RemoteCall × Option Droplet × List Diagnostic :=
  let d1 := diagFromClient "create-bits-package" c.createPackageResult.warnings
    (errOpt c.createPackageResult.result)
  if hasError d1 then ([RemoteCall.createPackage], none, d1)
  else
    if sourceCodePath = "" then
      ([RemoteCall.createPackage], none, d1 ++ [sourcePathRequiredDiag])
    else
      match c.openArchive with
      | Except.error e =>
        ([RemoteCall.createPackage], none, d1 ++
          [{ severity := Severity.error,
             summary := "failed to read zip file for source_code_path: " ++ sourceCodePath,
             detail := e }])
      | Except.ok _ =>
        match c.statArchive with
        | Except.error e =>
          ([RemoteCall.createPackage], none, d1 ++
            [{ severity := Severity.error,
               summary := "failed to stat zip file for source_code_path: " ++ sourceCodePath,
               detail := e }])
        | Except.ok _size =>
          let d2 := d1 ++ diagFromClient "upload-bits" c.uploadBitsResult.warnings
            (errOpt c.uploadBitsResult.result)
          let t2 := [RemoteCall.createPackage, RemoteCall.uploadBitsPackage]
          if hasError d2 then (t2, none, d2)
          else
            match c.packagePollResult with
            | Except.error e =>
              (t2 ++ [RemoteCall.pollPackage], none, d2 ++
                [{ severity := Severity.error, summary := e, detail := "" }])
            | Except.ok _ =>
              let d3 := d2 ++ diagFromClient "create-build" c.createBuildResult.warnings
                (errOpt c.createBuildResult.result)
              let t3 := t2 ++ [RemoteCall.pollPackage, RemoteCall.createBuild]
              if hasError d3 then (t3, none, d3)
              else
                match c.buildPollResult with
                | Except.error e =>
                  (t3 ++ [RemoteCall.pollBuild], none, d3 ++
                    [{ severity := Severity.error, summary := e, detail := "" }])
                | Except.ok _ =>
                  let d4 := d3 ++ diagFromClient "get-build" c.getBuildResult.warnings
                    (errOpt c.getBuildResult.result)
                  let t4 := t3 ++ [RemoteCall.pollBuild, RemoteCall.getBuild]
                  if hasError d4 then (t4, none, d4)
                  else
                    let d5 := d4 ++ diagFromClient "get-built-droplet" c.getDropletResult.warnings
                      (errOpt c.getDropletResult.result)
                    let t5 := t4 ++ [RemoteCall.getDroplet]
                    if hasError d5 then (t5, none, d5)
                    else
                      match c.getDropletResult.result with
                      | Except.error _ => (t5, none, d5)
                      | Except.ok droplet => (t5, some droplet, d5)

/-- A staging client on which every call succeeds. -/
def stageClientAllOk : BuildpackStageClient where
  createPackageResult :=
    { warnings := [], result := Except.ok { guid := "pkg-1" } }
  openArchive := Except.ok ()
  statArchive := Except.ok 1024
  uploadBitsResult :=
    { warnings := [], result := Except.ok { guid := "pkg-1" } }
  packagePollResult := Except.ok ()
  createBuildResult :=
    { warnings := [], result := Except.ok { guid := "build-1", dropletGUID := "drop-1" } }
  buildPollResult := Except.ok ()
  getBuildResult :=
    { warnings := [], result := Except.ok { guid := "build-1", dropletGUID := "drop-1" } }
  getDropletResult :=
    { warnings := [],
      result := Except.ok { guid := "drop-1", buildpacks := [], stack := "cflinuxfs3", image := "" } }

/-- Counterexample to C3 as stated: staging with an empty source path does
fail with the user-facing validation error, but only after the create-package
request has been issued — the remote trace contains the create-package call,
so a validation failure is not free of remote side effects. -/
theorem createBuildpackDroplet_validation_after_createPackage :
    (createBuildpackDroplet stageClientAllOk "").1 = [RemoteCall.createPackage] ∧
    RemoteCall.createPackage ∈ (createBuildpackDroplet stageClientAllOk "").1 ∧
    (createBuildpackDroplet stageClientAllOk "").2.1 = none ∧
    (createBuildpackDroplet stageClientAllOk "").2.2 = [sourcePathRequiredDiag] := by
  refine ⟨rfl, ?_, rfl, rfl⟩
  decide

/-- Diagnostics built from warnings alone never contain an error entry. -/
theorem hasError_diagFromClient_no_err (detail : String) (warns : List String) :
    hasError (diagFromClient detail warns none) = false := by
  simp [hasError, diagFromClient, List.any_map, Function.comp]

/-- Claim C3 (amended): whenever the source path is empty, or the archive
cannot be opened or statted, `createBuildpackDroplet` fails with a user-facing
error before uploading bits or creating a build — the only remote request
issued is the initial create-package call (which precedes the validation), and
no droplet is produced. -/
theorem createBuildpackDroplet_validation_stops_pipeline
    (c : BuildpackStageClient) (sourceCodePath : String)
    (hcp : errOpt c.createPackageResult.result = none)
    (hbad : sourceCodePath = "" ∨ (∃ e, c.openArchive = Except.error e) ∨
      (c.openArchive = Except.ok () ∧ ∃ e, c.statArchive = Except.error e)) :
    (createBuildpackDroplet c sourceCodePath).1 = [RemoteCall.createPackage] ∧
    (createBuildpackDroplet c sourceCodePath).2.1 = none ∧
    hasError (createBuildpackDroplet c sourceCodePath).2.2 = true := by
  have hd1 : hasError (diagFromClient "create-bits-package" c.createPackageResult.warnings
      (errOpt c.createPackageResult.result)) = false := by
    rw [hcp]
    exact hasError_diagFromClient_no_err _ _
  unfold createBuildpackDroplet
  dsimp only
  rw [hd1]
  simp only [Bool.false_eq_true, if_false]
  by_cases hpath : sourceCodePath = ""
  · rw [if_pos hpath]
    refine ⟨rfl, rfl, ?_⟩
    simp [hasError, List.any_append, sourcePathRequiredDiag]
  · rw [if_neg hpath]
    rcases hbad with hempty | ⟨e, hopen⟩ | ⟨hopen, e, hstat⟩
    · exact absurd hempty hpath
    · rw [hopen]
      refine ⟨rfl, rfl, ?_⟩
      simp [hasError, List.any_append]
    · rw [hopen, hstat]
      refine ⟨rfl, rfl, ?_⟩
      simp [hasError, List.any_append]

/-- Witness for C3 (amended): with an all-success client and an empty source
path, only the create-package request is issued and the operation fails. -/
theorem createBuildpackDroplet_validation_stops_pipeline_witness :
    (createBuildpackDroplet stageClientAllOk "").1 = [RemoteCall.createPackage] ∧
    (createBuildpackDroplet stageClientAllOk "").2.1 = none ∧
    hasError (createBuildpackDroplet stageClientAllOk "").2.2 = true :=
  createBuildpackDroplet_validation_stops_pipeline stageClientAllOk "" rfl (Or.inl rfl)

/-- A value set into the terraform state by `d.Set`. -/
inductive AttrVal
  | str (s : String)
  | int (n : Int)
  | strList (l : List String)
  | envMap (m : List (String × String))
deriving DecidableEq

/-- The slice of `schema.ResourceData` the embedded operations mutate: the
resource id (`SetId`) and the attributes written by `d.Set`, recorded in call
order. -/
structure ResourceState where
  id : String
  attrs : List (String × AttrVal)
deriving DecidableEq

/-- One `d.Set(key, value)` call. -/
def setAttr (st : ResourceState) (k : String) (v : AttrVal) : ResourceState :=
  { st with attrs := st.attrs ++ [(k, v)] }

/-- The application fields read by the embedded functions. -/
structure Application where
  guid : String
  name : String
  spaceGUID : String
  state : String
  lifecycleType : String
deriving DecidableEq

/-- The payload of `GetApplicationEnvironment`. -/
structure AppEnvironment where
  environmentVariables : List (String × String)
deriving DecidableEq

/-- Embeds the v3 `getApplication`: query applications filtered by GUID;
client errors propagate as diagnostics; an empty result list reports
not-found with no error; otherwise the first application is returned. -/
def getApplication (resp : ClientCall (List Application)) :
    Option Application × Bool × List Diagnostic :=
  let diags := diagFromClient "get-applications" resp.warnings (errOpt resp.result)
  if hasError diags then (none, false, diags)
  else
    match resp.result with
    | Except.error _ => (none, false, diags)
    | Except.ok apps =>
      match apps with
      | [] => (none, false, diags)
      | app :: _ => (some app, true, diags)

/-- Embeds the legacy `getApplication`: like the v3 variant but on not-found
it itself appends a warning naming the id and clears the resource id. -/
def getApplicationLegacy (st : ResourceState) (resp : ClientCall (List Application)) :
    Option Application × ResourceState × List Diagnostic :=
  let diags := diagFromClient "get-applications" resp.warnings (errOpt resp.result)
  if hasError diags then (none, st, diags)
  else
    match resp.result with
    | Except.error _ => (none, st, diags)
    | Except.ok apps =>
      match apps with
      | [] =>
        let diags := diags ++
          [{ severity := Severity.warning,
             summary := "app (" ++ st.id ++ ") not found, removing from state",
             detail := "get-applications" }]
        (none, { st with id := "" }, diags)
      | app :: _ => (some app, st, diags)

/-- Client responses consumed by one run of the v3 `resourceAppRead`. -/
structure AppReadClient where
  appsResult : ClientCall (List Application)
  envResult : ClientCall AppEnvironment
  webResult : ClientCall Process

/-- Embeds the v3 `resourceAppRead`: look the application up by id (clearing
the id and returning when it no longer exists), then fetch the environment
and the web process and copy their fields into the state.  The booleans are
the `GetOk("environment")` / `GetOk("command")` outcomes guarding the two
conditional writes. -/
def resourceAppRead (st : ResourceState) (envConfigured commandConfigured : Bool)
    (c : AppReadClient) : ResourceState × List Diagnostic :=
  let g := getApplication c.appsResult
  let diags := g.2.2
  if hasError diags then (st, diags)
  else if g.2.1 = false then ({ st with id := "" }, diags)
  else
    match g.1 with
    | none => (st, diags)
    | some app =>
      let diags := diags ++ diagFromClient "get-application-environment"
        c.envResult.warnings (errOpt c.envResult.result)
      if hasError diags then (st, diags)
      else
        match c.envResult.result with
        | Except.error _ => (st, diags)
        | Except.ok env =>
          let st1 := if envConfigured then
              setAttr st "environment" (AttrVal.envMap env.environmentVariables)
            else st
          let diags := diags ++ diagFromClient "get-web-process"
            c.webResult.warnings (errOpt c.webResult.result)
          if hasError diags then (st1, diags)
          else
            match c.webResult.result with
            | Except.error _ => (st1, diags)
            | Except.ok web =>
              let st2 := if commandConfigured then
                  setAttr st1 "command" (AttrVal.str web.command)
                else st1
              let st3 := setAttr st2 "name" (AttrVal.str app.name)
              let st4 := setAttr st3 "space_id" (AttrVal.str app.spaceGUID)
              let st5 := setAttr st4 "health_check_type" (AttrVal.str web.healthCheckType)
              let st6 := setAttr st5 "health_check_endpoint" (AttrVal.str web.healthCheckEndpoint)
              let st7 := setAttr st6 "memory_in_mb" (AttrVal.int web.memoryInMB)
              let st8 := setAttr st7 "disk_in_mb" (AttrVal.int web.diskInMB)
              let st9 := setAttr st8 "instances" (AttrVal.int web.instancesValue)
              (st9, diags)

/-- Lifecycle type constants (`constant.AppLifecycleTypeBuildpack/Docker`). -/
def AppLifecycleTypeBuildpack : String := "buildpack"

def AppLifecycleTypeDocker : String := "docker"

/-- Embeds `resourceDropletRead`: look the droplet up by GUID; when the query
succeeds but matches nothing, clear the id and return without error;
otherwise copy the lifecycle-specific fields into the state. -/
def resourceDropletRead (st : ResourceState) (lifecycleType : String)
    (dropletsResult : ClientCall (List Droplet)) : ResourceState × List Diagnostic :=
  let diags := diagFromClient "get-droplet-for-read" dropletsResult.warnings
    (errOpt dropletsResult.result)
  if hasError diags then (st, diags)
  else
    match dropletsResult.result with
    | Except.error _ => (st, diags)
    | Except.ok droplets =>
      match droplets with
      | [] => ({ st with id := "" }, diags)
      | droplet :: _ =>
        if lifecycleType = AppLifecycleTypeBuildpack then
          (setAttr (setAttr st "buildpacks" (AttrVal.strList droplet.buildpacks))
            "stack" (AttrVal.str droplet.stack), diags)
        else if lifecycleType = AppLifecycleTypeDocker then
          (setAttr st "docker_image" (AttrVal.str droplet.image), diags)
        else (st, diags)

/-- Claim C7: when the platform lookup succeeds but returns no matching
record, each read-side operation clears the local resource id and returns
with no error diagnostic (warnings from the client are allowed): the v3 app
read, the droplet read, and the legacy getApplication helper. -/
theorem notFound_read_clears_id_without_error
    (st : ResourceState) (envConfigured commandConfigured : Bool)
    (warnsA warnsD warnsL : List String) (lifecycleType : String)
    (envR : ClientCall AppEnvironment) (webR : ClientCall Process) :
    ((resourceAppRead st envConfigured commandConfigured
        { appsResult := { warnings := warnsA, result := Except.ok [] },
          envResult := envR, webResult := webR }).1.id = "" ∧
      hasError (resourceAppRead st envConfigured commandConfigured
        { appsResult := { warnings := warnsA, result := Except.ok [] },
          envResult := envR, webResult := webR }).2 = false) ∧
    ((resourceDropletRead st lifecycleType
        { warnings := warnsD, result := Except.ok [] }).1.id = "" ∧
      hasError (resourceDropletRead st lifecycleType
        { warnings := warnsD, result := Except.ok [] }).2 = false) ∧
    ((getApplicationLegacy st { warnings := warnsL, result := Except.ok [] }).2.1.id = "" ∧
      hasError (getApplicationLegacy st
        { warnings := warnsL, result := Except.ok [] }).2.2 = false) := by
  refine ⟨⟨?_, ?_⟩, ⟨?_, ?_⟩, ⟨?_, ?_⟩⟩ <;>
    simp [resourceAppRead, getApplication, resourceDropletRead, getApplicationLegacy,
      hasError_diagFromClient_no_err, errOpt, hasError, diagFromClient,
      List.any_map, List.any_append, Function.comp]

/-- Embeds `resourceDropletDelete`: a deliberate no-op — the client session is
never used, so no remote call is recorded, the state is untouched, and no
diagnostics are produced. -/
def resourceDropletDelete (st : ResourceState) :
    ResourceState × List RemoteCall × List Diagnostic :=
  (st, [], [])

/-- Claim C8: deleting a droplet resource makes no remote call, leaves local
state untouched (so the remote droplet in particular is unchanged), and
returns no error. -/
theorem resourceDropletDelete_noop (st : ResourceState) :
    (resourceDropletDelete st).2.1 = [] ∧
    (resourceDropletDelete st).1 = st ∧
    (resourceDropletDelete st).2.2 = [] ∧
    hasError (resourceDropletDelete st).2.2 = false := by
  refine ⟨rfl, rfl, rfl, rfl⟩

/-- The configuration fields consulted by the legacy `resourceAppCreate`,
including the configured desired run state (which create ignores). -/
structure AppCreateConfig where
  name : String
  spaceId : String
  lifecycleType : String
  state : String
deriving DecidableEq

/-- Embeds the desired-application request literal built by
`resourceAppCreate`: name, space and lifecycle type from configuration, the
state hardcoded to `constant.ApplicationStopped`. -/
def desiredAppForCreate (cfg : AppCreateConfig) : Application :=
  { guid := "", name := cfg.name, spaceGUID := cfg.spaceId,
    state := ApplicationStopped, lifecycleType := cfg.lifecycleType }

/-- The externally visible steps of `resourceAppCreate`: the CreateApplication
request it issues, then the invocation of `resourceAppUpdate` (the phase in
which the configured run state is reconciled). -/
inductive CreateStep
  | createApplication (app : Application)
  | runUpdate
deriving DecidableEq

/-- Embeds `resourceAppCreate`: issue CreateApplication with the
stopped-state request; on a client error return the diagnostics without
proceeding; otherwise record the new GUID as the id and invoke
`resourceAppUpdate` (abstracted as the runUpdate step). -/
def resourceAppCreate (cfg : AppCreateConfig) (st : ResourceState)
    (createResult : ClientCall Application) :
    List CreateStep × ResourceState × List Diagnostic :=
  let desiredApp := desiredAppForCreate cfg
  let diags := diagFromClient "create-application" createResult.warnings
    (errOpt createResult.result)
  match createResult.result with
  | Except.error _ => ([CreateStep.createApplication desiredApp], st, diags)
  | Except.ok app =>
    ([CreateStep.createApplication desiredApp, CreateStep.runUpdate],
      { st with id := app.guid }, diags)

/-- Claim C9: every application-create request carries the stopped run state
regardless of the configured desired state, and the desired state is applied
only afterwards: on success the create step is followed by the update
invocation. -/
theorem resourceAppCreate_requests_stopped (cfg : AppCreateConfig)
    (st : ResourceState) (r : ClientCall Application) :
    (resourceAppCreate cfg st r).1.head? =
      some (CreateStep.createApplication (desiredAppForCreate cfg)) ∧
    (desiredAppForCreate cfg).state = ApplicationStopped ∧
    (∀ app, r.result = Except.ok app →
      (resourceAppCreate cfg st r).1 =
        [CreateStep.createApplication (desiredAppForCreate cfg), CreateStep.runUpdate]) := by
  refine ⟨?_, rfl, ?_⟩
  · unfold resourceAppCreate
    cases r.result <;> rfl
  · intro app happ
    unfold resourceAppCreate
    rw [happ]

/-- Witness for C9: with a configuration asking for the STARTED state, the
create request still carries STOPPED and on success the update phase
follows. -/
theorem resourceAppCreate_requests_stopped_witness :
    (desiredAppForCreate
        { name := "app", spaceId := "space", lifecycleType := "buildpack",
          state := ApplicationStarted }).state = ApplicationStopped ∧
    (resourceAppCreate
        { name := "app", spaceId := "space", lifecycleType := "buildpack",
          state := ApplicationStarted }
        { id := "", attrs := [] }
        { warnings := [],
          result := Except.ok { guid := "g", name := "app", spaceGUID := "space",
                                state := "STOPPED", lifecycleType := "buildpack" } }).1 =
      [CreateStep.createApplication (desiredAppForCreate
        { name := "app", spaceId := "space", lifecycleType := "buildpack",
          state := ApplicationStarted }), CreateStep.runUpdate] :=
  let h := resourceAppCreate_requests_stopped
    { name := "app", spaceId := "space", lifecycleType := "buildpack",
      state := ApplicationStarted }
    { id := "", attrs := [] }
    { warnings := [],
      result := Except.ok { guid := "g", name := "app", spaceGUID := "space",
                            state := "STOPPED", lifecycleType := "buildpack" } }
  ⟨h.2.1, h.2.2 _ rfl⟩

/-- The ccv3 `types.FilteredString` patch entry: a value plus a set flag. -/
structure FilteredString where
  value : String
  isSet : Bool
deriving DecidableEq

/-- A Go map assignment `desiredEnv[k] = v` over a map represented as a
lookup function. -/
def insertEnv (m : String → Option FilteredString) (k : String) (v : FilteredString) :
    String → Option FilteredString :=
  fun q => if q = k then some v else m q

/-- Embeds the desired-environment computation of `applyAppEnvironment`:
starting from an empty map, every key of the current remote environment is
marked unset (value "", IsSet false), then every configured variable is
entered as set with its configured value. -/
def desiredEnvForUpdate (currentEnv : List (String × String))
    (configured : List (String × String)) : String → Option FilteredString :=
  let base := (currentEnv.map Prod.fst).foldl
    (fun m k => insertEnv m k { value := "", isSet := false }) (fun _ => none)
  configured.foldl (fun m kv => insertEnv m kv.1 { value := kv.2, isSet := true }) base

/-- Lookup in an association-list environment (first binding wins; the
embedded Go maps have unique keys). -/
def lookupEnv (env : List (String × String)) (k : String) : Option String :=
  (env.find? (fun kv => kv.1 == k)).map Prod.snd

/-- Modelled from the spec: the `UpdateApplicationEnvironmentVariables`
endpoint belongs to the excluded Cloud Foundry API client, so its patch
semantics are not in this repository.  Per the external-interface contract, a
patch entry with IsSet true sets the variable to the given value, an entry
with IsSet false unsets it, and a variable absent from the patch is left
unchanged. -/
def applyEnvPatch (remote : String → Option String)
    (patch : String → Option FilteredString) : String → Option String :=
  fun k =>
    match patch k with
    | some fs => if fs.isSet then some fs.value else none
    | none => remote k

theorem lookupEnv_eq_none_of_not_mem (env : List (String × String)) (k : String)
    (h : ¬ k ∈ env.map Prod.fst) : lookupEnv env k = none := by
  induction env with
  | nil => rfl
  | cons a tl ih =>
    simp only [List.map_cons, List.mem_cons] at h
    push_neg at h
    simp only [lookupEnv, List.find?_cons]
    have hne : (a.1 == k) = false := by
      simp [beq_eq_false_iff_ne]
      exact fun hy => h.1 hy.symm
    rw [hne]
    exact ih h.2

theorem foldl_insertEnv_unset (keys : List String) (m : String → Option FilteredString)
    (k : String) :
    (keys.foldl (fun m q => insertEnv m q { value := "", isSet := false }) m) k =
      if k ∈ keys then some { value := "", isSet := false } else m k := by
  induction keys generalizing m with
  | nil => simp
  | cons q tl ih =>
    simp only [List.foldl_cons, List.mem_cons]
    rw [ih]
    by_cases htl : k ∈ tl
    · simp [htl]
    · by_cases hq : k = q
      · simp [htl, hq, insertEnv]
      · simp [htl, hq, insertEnv]

theorem foldl_insertEnv_set (configured : List (String × String))
    (m : String → Option FilteredString)
    (hnd : (configured.map Prod.fst).Nodup) (k : String) :
    (configured.foldl (fun m kv => insertEnv m kv.1 { value := kv.2, isSet := true }) m) k =
      match lookupEnv configured k with
      | some v => some { value := v, isSet := true }
      | none => m k := by
  induction configured generalizing m with
  | nil => rfl
  | cons a tl ih =>
    simp only [List.map_cons, List.nodup_cons] at hnd
    simp only [List.foldl_cons]
    rw [ih _ hnd.2]
    by_cases hk : a.1 = k
    · have hnone : lookupEnv tl k = none := by
        apply lookupEnv_eq_none_of_not_mem
        rw [← hk]
        exact hnd.1
      rw [hnone]
      have hfind : lookupEnv (a :: tl) k = some a.2 := by
        simp [lookupEnv, List.find?_cons, hk]
      rw [hfind]
      simp [insertEnv, hk]
    · have hfind : lookupEnv (a :: tl) k = lookupEnv tl k := by
        have hne : (a.1 == k) = false := by simp [beq_eq_false_iff_ne, hk]
        simp [lookupEnv, List.find?_cons, hne]
      rw [hfind]
      cases lookupEnv tl k with
      | some v => rfl
      | none =>
        show insertEnv m a.1 { value := a.2, isSet := true } k = m k
        unfold insertEnv
        rw [if_neg (fun h => hk h.symm)]

/-- Claim C10: updating the environment replaces it entirely — every key of
the current remote environment absent from the configured map is entered in
the patch as an explicit unset, every configured variable is entered as set
with its value, and applying the resulting patch to the remote environment
yields exactly the configured map. -/
theorem applyAppEnvironment_replaces_environment
    (currentEnv configured : List (String × String))
    (hnd : (configured.map Prod.fst).Nodup) :
    (∀ k, k ∈ currentEnv.map Prod.fst → ¬ k ∈ configured.map Prod.fst →
      desiredEnvForUpdate currentEnv configured k =
        some { value := "", isSet := false }) ∧
    (∀ k v, lookupEnv configured k = some v →
      desiredEnvForUpdate currentEnv configured k =
        some { value := v, isSet := true }) ∧
    (∀ k, applyEnvPatch (lookupEnv currentEnv) (desiredEnvForUpdate currentEnv configured) k =
      lookupEnv configured k) := by
  have hdesired : ∀ k, desiredEnvForUpdate currentEnv configured k =
      match lookupEnv configured k with
      | some v => some { value := v, isSet := true }
      | none =>
        if k ∈ currentEnv.map Prod.fst then some { value := "", isSet := false }
        else none := by
    intro k
    unfold desiredEnvForUpdate
    rw [foldl_insertEnv_set _ _ hnd, foldl_insertEnv_unset]
  refine ⟨?_, ?_, ?_⟩
  · intro k hcur hconf
    rw [hdesired k, lookupEnv_eq_none_of_not_mem _ _ hconf]
    simp [hcur]
  · intro k v hv
    rw [hdesired k, hv]
  · intro k
    unfold applyEnvPatch
    rw [hdesired k]
    cases hv : lookupEnv configured k with
    | some v => simp
    | none =>
      by_cases hcur : k ∈ currentEnv.map Prod.fst
      · simp [hcur, hv]
      · simp [hcur, lookupEnv_eq_none_of_not_mem _ _ hcur, hv]

/-- Witness for C10: with remote environment A=1, B=old and configured map
B=2, C=3, the patched environment is exactly B=2, C=3 (A unset). -/
theorem applyAppEnvironment_replaces_environment_witness :
    applyEnvPatch (lookupEnv [("A", "1"), ("B", "old")])
      (desiredEnvForUpdate [("A", "1"), ("B", "old")] [("B", "2"), ("C", "3")]) "A" = none ∧
    applyEnvPatch (lookupEnv [("A", "1"), ("B", "old")])
      (desiredEnvForUpdate [("A", "1"), ("B", "old")] [("B", "2"), ("C", "3")]) "B" = some "2" ∧
    applyEnvPatch (lookupEnv [("A", "1"), ("B", "old")])
      (desiredEnvForUpdate [("A", "1"), ("B", "old")] [("B", "2"), ("C", "3")]) "C" = some "3" :=
  let h := applyAppEnvironment_replaces_environment [("A", "1"), ("B", "old")]
    [("B", "2"), ("C", "3")] (by decide)
  ⟨(h.2.2 "A").trans rfl, (h.2.2 "B").trans rfl, (h.2.2 "C").trans rfl⟩

end CF
